import Mathlib

/-!
Verification of the HgiGL command-op layer (pxr/imaging/hgiGL/ops.cpp) and
the color-correction task's full-screen pass
(pxr/imaging/hdx/colorCorrectionTask.cpp).

Each op factory in the source returns a zero-argument closure that is later
invoked against one native GL context.  We embed an op's invocation as a
function from the global GL state to a result record holding the final
state, the ordered trace of native calls issued, counts of non-fatal
diagnostics (TF_VERIFY failures, TF_WARN, TF_CODING_ERROR), and an outcome
flag distinguishing normal completion from undefined behaviour (null handle
dereference, out-of-bounds vector indexing).

Machine integers are modelled as Nat with explicit reduction mod 2^32 where
the source performs 32-bit arithmetic.
-/

/-- 2^32, the modulus of uint32_t arithmetic. -/
def UINT32_MOD : Nat := 4294967296

/-! ## GL enumeration constants (values from the GL headers) -/

def GL_NONE : Nat := 0
def GL_TRIANGLES : Nat := 4
def GL_DEPTH_BUFFER_BIT : Nat := 0x100
def GL_COLOR_BUFFER_BIT : Nat := 0x4000
def GL_UNSIGNED_INT : Nat := 0x1405
def GL_FLOAT : Nat := 0x1406
def GL_DEPTH_COMPONENT : Nat := 0x1902
def GL_COLOR : Nat := 0x1800
def GL_DEPTH : Nat := 0x1801
def GL_ALWAYS : Nat := 0x0207
def GL_BLEND : Nat := 0x0BE2
def GL_SAMPLE_ALPHA_TO_COVERAGE : Nat := 0x809E
def GL_ARRAY_BUFFER : Nat := 0x8892
def GL_ELEMENT_ARRAY_BUFFER : Nat := 0x8893
def GL_READ_FRAMEBUFFER : Nat := 0x8CA8
def GL_DRAW_FRAMEBUFFER : Nat := 0x8CA9
def GL_FRAMEBUFFER : Nat := 0x8D40
def GL_COLOR_ATTACHMENT0 : Nat := 0x8CE0
def GL_DEPTH_ATTACHMENT : Nat := 0x8D00
def GL_FRAMEBUFFER_COMPLETE : Nat := 0x8CD5
def GL_DEPTH_COMPONENT32F : Nat := 0x8CAC
def GL_NEAREST : Nat := 0x2600
def GL_TEXTURE_2D : Nat := 0x0DE1
def GL_TEXTURE_3D : Nat := 0x806F
def GL_TEXTURE0 : Nat := 0x84C0
def GL_TEXTURE1 : Nat := 0x84C1
def GL_BUFFER_UPDATE_BARRIER_BIT : Nat := 0x200
def GL_ALL_BARRIER_BITS : Nat := 0xFFFFFFFF

/-! ## Hgi enumeration constants (pxr/imaging/hgi/enums.h, bit flags) -/

def HgiTextureUsageBitsColorTarget : Nat := 1
def HgiTextureUsageBitsDepthTarget : Nat := 2
def HgiBufferUsageUniform : Nat := 1
def HgiBufferUsageIndex32 : Nat := 2
def HgiBufferUsageStorage : Nat := 4
def HgiBufferUsageVertex : Nat := 8
def HgiAttachmentLoadOpDontCare : Nat := 0
def HgiAttachmentLoadOpClear : Nat := 1
def HgiAttachmentLoadOpLoad : Nat := 2
def HgiFormatFloat32 : Nat := 9

/-- A 4-component integer vector (pxr/base/gf GfVec4i). -/
structure GfVec4i where
  x : Int
  y : Int
  z : Int
  w : Int
deriving DecidableEq, Repr

/-- One native GL call, as recorded in an op invocation's trace.
`postPendingErrors` stands for the HGIGL_POST_PENDING_GL_ERRORS /
GLF_POST_PENDING_GL_ERRORS error-polling macro. -/
inductive GLCall where
  | pushDebugGroup (label : String)
  | popDebugGroup
  | memoryBarrier (mask : Nat)
  | getTextureSubImage (tex mip : Nat) (xo yo zo : Nat) (w h d : Nat)
      (fmt ptype : Nat) (bufSize dst : Nat)
  | namedBufferSubData (buffer offset size src : Nat)
  | createFramebuffers (fb : Nat)
  | deleteFramebuffers (fb : Nat)
  | namedFramebufferDrawBuffers (fb : Nat) (bufs : List Nat)
  | namedFramebufferTexture (fb attachment tex level : Nat)
  | checkNamedFramebufferStatus (fb target : Nat)
  | bindFramebuffer (target fb : Nat)
  | blitFramebuffer (sx0 sy0 sx1 sy1 dx0 dy0 dx1 dy1 : Int) (mask filter : Nat)
  | viewport (x y w h : Int)
  | scissor (x y w h : Int)
  | bindPipeline (pipeline : Nat)
  | bindResources (res : Nat)
  | bindVertexBuffer (slot buffer offset stride : Nat)
  | bindBuffer (target buffer : Nat)
  | drawElementsInstancedBaseVertex (mode count indexType indices instCnt baseVertex : Nat)
  | drawArrays (mode first count : Nat)
  | clearBufferfv (buffer drawbuffer clearValue : Nat)
  | blendFuncSeparatei (i srcC dstC srcA dstA : Nat)
  | blendEquationSeparatei (i cOp aOp : Nat)
  | enable (cap : Nat)
  | disable (cap : Nat)
  | useProgram (program : Nat)
  | activeTexture (unit : Nat)
  | bindTexture (target tex : Nat)
  | uniform1i (loc v : Nat)
  | vertexAttribPointer (loc size stride offset : Nat)
  | enableVertexAttribArray (loc : Nat)
  | disableVertexAttribArray (loc : Nat)
  | depthMask (flag : Bool)
  | stencilMask (mask : Nat)
  | depthFunc (fn : Nat)
  | postPendingErrors
deriving DecidableEq, Repr

/-! ## Resource handles and descriptors -/

/-- Texture descriptor (the fields of HgiTextureDesc the ops read). -/
structure HgiTextureDesc where
  usage : Nat
  format : Nat
  dimX : Nat
  dimY : Nat
  dimZ : Nat
  layerCount : Nat
deriving DecidableEq, Repr

/-- A GL texture: native id plus descriptor (HgiGLTexture). -/
structure HgiGLTexture where
  textureId : Nat
  descriptor : HgiTextureDesc
deriving DecidableEq, Repr

/-- A texture handle resolves to a texture or to null (HgiTextureHandle). -/
def HgiTextureHandle : Type := Option HgiGLTexture

/-- Buffer descriptor (the fields of HgiBufferDesc the ops read). -/
structure HgiBufferDesc where
  usage : Nat
  vertexStride : Nat
deriving DecidableEq, Repr

/-- A GL buffer: native id plus descriptor (HgiGLBuffer). -/
structure HgiGLBuffer where
  bufferId : Nat
  descriptor : HgiBufferDesc
deriving DecidableEq, Repr

/-- A buffer handle resolves to a buffer or to null (HgiBufferHandle). -/
def HgiBufferHandle : Type := Option HgiGLBuffer

/-! ## Global GL state -/

/-- The pieces of global GPU binding state the ops touch.  Per-slot vertex
buffer bindings and per-unit texture bindings are association lists keyed by
slot / texture unit. -/
structure GLBindings where
  readFramebuffer : Nat
  drawFramebuffer : Nat
  elementArrayBuffer : Nat
  arrayBuffer : Nat
  vertexBufferBindings : List (Nat × Nat × Nat × Nat)
  activeTextureUnit : Nat
  textureBindings2D : List (Nat × Nat)
  textureBindings3D : List (Nat × Nat)
  texture3DEnabled : Bool
  program : Nat
  enabledVertexAttribs : List Nat
  viewportRect : GfVec4i
  scissorRect : GfVec4i
  blend : Bool
  depthWriteMask : Bool
  stencilWriteMask : Nat
  depthComparisonFn : Nat
  alphaToCoverage : Bool
deriving DecidableEq, Repr

/-- Full GL context state: bindings plus the framebuffer-object heap
(`nextFramebufferId` is the next fresh name glCreateFramebuffers returns,
`liveFramebuffers` the names currently alive). -/
structure GLState where
  b : GLBindings
  nextFramebufferId : Nat
  liveFramebuffers : List Nat
deriving DecidableEq, Repr

/-- How an op invocation ended: normal completion, or undefined behaviour
from indexing a vector out of bounds or dereferencing a null handle. -/
inductive Outcome where
  | ok
  | oobIndex
  | nullDeref
deriving DecidableEq, Repr

/-- Result of invoking one op: final state, trace of native calls issued (in
order), diagnostic counts, and the outcome. -/
structure OpResult where
  state : GLState
  calls : List GLCall
  verifyFailures : Nat
  warnings : Nat
  codingErrors : Nat
  outcome : Outcome
deriving DecidableEq, Repr

/-- Update an association list at a key (used for per-unit texture bindings). -/
def setAssoc : List (Nat × Nat) → Nat → Nat → List (Nat × Nat)
  | [], k, v => [(k, v)]
  | (k', v') :: t, k, v =>
      if k' = k then (k, v) :: t else (k', v') :: setAssoc t k v

/-- Update the per-slot vertex buffer binding table (slot, buffer, offset,
stride). -/
def setVertexBinding : List (Nat × Nat × Nat × Nat) → Nat → Nat × Nat × Nat →
    List (Nat × Nat × Nat × Nat)
  | [], slot, v => [(slot, v)]
  | (s', v') :: t, slot, v =>
      if s' = slot then (slot, v) :: t else (s', v') :: setVertexBinding t slot v

/-! ## Operation descriptors -/

/-- Descriptor of a GPU-to-CPU texture copy (HgiTextureGpuToCpuOp).
`cpuDestinationBuffer` is the destination pointer's address. -/
structure HgiTextureGpuToCpuOp where
  gpuSourceTexture : Option HgiGLTexture
  sourceTexelOffsetX : Nat
  sourceTexelOffsetY : Nat
  sourceTexelOffsetZ : Nat
  mipLevel : Nat
  startLayer : Nat
  numLayers : Nat
  destinationBufferByteSize : Nat
  cpuDestinationBuffer : Nat
deriving DecidableEq, Repr

/-- Descriptor of a CPU-to-GPU buffer copy (HgiBufferCpuToGpuOp).
`cpuSourceBuffer` is the source pointer's address (0 = null). -/
structure HgiBufferCpuToGpuOp where
  byteSize : Nat
  cpuSourceBuffer : Nat
  sourceByteOffset : Nat
  gpuDestinationBuffer : Option HgiGLBuffer
  destinationByteOffset : Nat
deriving DecidableEq, Repr

/-- Descriptor of a multisample resolve (HgiResolveImageOp). -/
structure HgiResolveImageOp where
  usage : Nat
  source : Option HgiGLTexture
  destination : Option HgiGLTexture
  sourceRegion : GfVec4i
  destinationRegion : GfVec4i
deriving DecidableEq, Repr

namespace HgiGLConversions

/-- Modelled from the spec: HgiGLConversions::GetFormat
(pxr/imaging/hgiGL/conversions.cpp) is not under src/; it is an opaque
conversion table from the abstract texture format to the native
(format, pixel type, internal format) enum triple.  The concrete native
values are irrelevant to every claim, so the mapping is modelled as an
injective renaming. -/
def GetFormat (format : Nat) : Nat × Nat × Nat :=
  (1000000 + format, 2000000 + format, 3000000 + format)

/-- Modelled from the spec: HgiGLConversions::GetBlendFactor is not under
src/; an opaque conversion from the abstract blend-factor enum to the native
enum, modelled as an injective renaming. -/
def GetBlendFactor (factor : Nat) : Nat := 4000000 + factor

/-- Modelled from the spec: HgiGLConversions::GetBlendEquation is not under
src/; an opaque conversion from the abstract blend-op enum to the native
enum, modelled as an injective renaming. -/
def GetBlendEquation (op : Nat) : Nat := 5000000 + op

end HgiGLConversions

/-- Result of an invocation that touches nothing: state unchanged, no calls,
no diagnostics. -/
def noopResult (s : GLState) : OpResult :=
  { state := s, calls := [], verifyFailures := 0, warnings := 0,
    codingErrors := 0, outcome := Outcome.ok }

namespace HgiGLOps

/-- HgiGLOps::PushDebugGroup: annotates subsequent calls when the KHR_debug
extension is present (`khrDebug`), silent no-op otherwise.  Never touches
binding state. -/
def PushDebugGroup (khrDebug : Bool) (label : String) (s : GLState) : OpResult :=
  { state := s
    calls := if khrDebug then [GLCall.pushDebugGroup label] else []
    verifyFailures := 0, warnings := 0, codingErrors := 0, outcome := Outcome.ok }

/-- HgiGLOps::PopDebugGroup. -/
def PopDebugGroup (khrDebug : Bool) (s : GLState) : OpResult :=
  { state := s
    calls := if khrDebug then [GLCall.popDebugGroup] else []
    verifyFailures := 0, warnings := 0, codingErrors := 0, outcome := Outcome.ok }

/-- HgiGLOps::CopyTextureGpuToCpu: early returns on an invalid texture
handle (TF_VERIFY), a zero destination size (TF_WARN), or a layer range
exceeding the texture's layer count (TF_VERIFY, computed in uint32_t
arithmetic); otherwise resolves the native formats, issues a full memory
barrier, the readback, and the error poll. -/
def CopyTextureGpuToCpu (copyOp : HgiTextureGpuToCpuOp) (s : GLState) : OpResult :=
  match copyOp.gpuSourceTexture with
  | none =>
      { state := s, calls := [], verifyFailures := 1, warnings := 0,
        codingErrors := 0, outcome := Outcome.ok }
  | some srcTexture =>
      if srcTexture.textureId = 0 then
        { state := s, calls := [], verifyFailures := 1, warnings := 0,
          codingErrors := 0, outcome := Outcome.ok }
      else if copyOp.destinationBufferByteSize = 0 then
        { state := s, calls := [], verifyFailures := 0, warnings := 1,
          codingErrors := 0, outcome := Outcome.ok }
      else
        let texDesc := srcTexture.descriptor
        let layerCnt := (copyOp.startLayer + copyOp.numLayers) % UINT32_MOD
        if texDesc.layerCount < layerCnt then
          { state := s, calls := [], verifyFailures := 1, warnings := 0,
            codingErrors := 0, outcome := Outcome.ok }
        else
          let fm :=
            if Nat.land texDesc.usage HgiTextureUsageBitsColorTarget ≠ 0 then
              (HgiGLConversions.GetFormat texDesc.format, (0 : Nat), (0 : Nat))
            else if Nat.land texDesc.usage HgiTextureUsageBitsDepthTarget ≠ 0 then
              ((GL_DEPTH_COMPONENT, GL_FLOAT, GL_DEPTH_COMPONENT32F),
               if texDesc.format = HgiFormatFloat32 then (0 : Nat) else 1, (0 : Nat))
            else
              (((0 : Nat), (0 : Nat), (0 : Nat)), (0 : Nat), (1 : Nat))
          { state := s
            calls := [GLCall.memoryBarrier GL_ALL_BARRIER_BITS,
              GLCall.getTextureSubImage srcTexture.textureId copyOp.mipLevel
                copyOp.sourceTexelOffsetX copyOp.sourceTexelOffsetY
                copyOp.sourceTexelOffsetZ texDesc.dimX texDesc.dimY texDesc.dimZ
                fm.1.1 fm.1.2.1 copyOp.destinationBufferByteSize
                copyOp.cpuDestinationBuffer,
              GLCall.postPendingErrors]
            verifyFailures := fm.2.1, warnings := 0, codingErrors := fm.2.2,
            outcome := Outcome.ok }

/-- HgiGLOps::CopyBufferCpuToGpu: no-op when the size is 0 or either the
source pointer or destination handle is absent; otherwise one sub-data
write followed by a buffer-update barrier (and no error poll). -/
def CopyBufferCpuToGpu (copyOp : HgiBufferCpuToGpuOp) (s : GLState) : OpResult :=
  match copyOp.gpuDestinationBuffer with
  | none => noopResult s
  | some glBuffer =>
      if copyOp.byteSize = 0 ∨ copyOp.cpuSourceBuffer = 0 then
        noopResult s
      else
        { state := s
          calls := [GLCall.namedBufferSubData glBuffer.bufferId
              copyOp.destinationByteOffset copyOp.byteSize
              (copyOp.cpuSourceBuffer + copyOp.sourceByteOffset),
            GLCall.memoryBarrier GL_BUFFER_UPDATE_BARRIER_BIT]
          verifyFailures := 0, warnings := 0, codingErrors := 0,
          outcome := Outcome.ok }

/-- HgiGLOps::ResolveImage: creates two framebuffers, then (a) on a missing
source or destination texture, logs a coding error and returns with the two
framebuffers still alive; (b) otherwise wires the attachments per the usage
flag (depth: GL_NONE draw buffers first; color: COLOR_ATTACHMENT0), checks
completeness, saves the read/draw framebuffer bindings, binds, blits,
restores the saved bindings, deletes both framebuffers and polls errors. -/
def ResolveImage (resolveOp : HgiResolveImageOp) (s : GLState) : OpResult :=
  let readFramebuffer := s.nextFramebufferId
  let writeFramebuffer := s.nextFramebufferId + 1
  let s1 : GLState :=
    { s with nextFramebufferId := s.nextFramebufferId + 2,
             liveFramebuffers := s.liveFramebuffers ++ [readFramebuffer, writeFramebuffer] }
  let createCalls := [GLCall.createFramebuffers readFramebuffer,
                      GLCall.createFramebuffers writeFramebuffer]
  match resolveOp.source, resolveOp.destination with
  | some glSrcTexture, some glDstTexture =>
      let readAttachment := glSrcTexture.textureId
      let writeAttachment := glDstTexture.textureId
      let vfTex := (if readAttachment ≠ 0 then 0 else 1) +
                   (if writeAttachment ≠ 0 then 0 else 1)
      let isDepth := Nat.land resolveOp.usage HgiTextureUsageBitsDepthTarget ≠ 0
      let attachCalls :=
        if isDepth then
          [GLCall.namedFramebufferDrawBuffers readFramebuffer [GL_NONE],
           GLCall.namedFramebufferDrawBuffers writeFramebuffer [GL_NONE],
           GLCall.namedFramebufferTexture readFramebuffer GL_COLOR_ATTACHMENT0 0 0,
           GLCall.namedFramebufferTexture writeFramebuffer GL_COLOR_ATTACHMENT0 0 0,
           GLCall.namedFramebufferTexture readFramebuffer GL_DEPTH_ATTACHMENT readAttachment 0,
           GLCall.namedFramebufferTexture writeFramebuffer GL_DEPTH_ATTACHMENT writeAttachment 0]
        else
          [GLCall.namedFramebufferDrawBuffers readFramebuffer [GL_COLOR_ATTACHMENT0],
           GLCall.namedFramebufferDrawBuffers writeFramebuffer [GL_COLOR_ATTACHMENT0],
           GLCall.namedFramebufferTexture readFramebuffer GL_DEPTH_ATTACHMENT 0 0,
           GLCall.namedFramebufferTexture writeFramebuffer GL_DEPTH_ATTACHMENT 0 0,
           GLCall.namedFramebufferTexture readFramebuffer GL_COLOR_ATTACHMENT0 readAttachment 0,
           GLCall.namedFramebufferTexture writeFramebuffer GL_COLOR_ATTACHMENT0 writeAttachment 0]
      let mask := if isDepth then GL_DEPTH_BUFFER_BIT else GL_COLOR_BUFFER_BIT
      let src := resolveOp.sourceRegion
      let dst := resolveOp.destinationRegion
      let restoreRead := s1.b.readFramebuffer
      let restoreWrite := s1.b.drawFramebuffer
      let b1 := { s1.b with readFramebuffer := readFramebuffer,
                            drawFramebuffer := writeFramebuffer }
      let b2 := { b1 with readFramebuffer := restoreRead,
                          drawFramebuffer := restoreWrite }
      let s2 := { s1 with
                  b := b2,
                  liveFramebuffers :=
                    (s1.liveFramebuffers.erase readFramebuffer).erase writeFramebuffer }
      { state := s2
        calls := createCalls ++ attachCalls ++
          [GLCall.checkNamedFramebufferStatus readFramebuffer GL_READ_FRAMEBUFFER,
           GLCall.checkNamedFramebufferStatus writeFramebuffer GL_DRAW_FRAMEBUFFER,
           GLCall.bindFramebuffer GL_READ_FRAMEBUFFER readFramebuffer,
           GLCall.bindFramebuffer GL_DRAW_FRAMEBUFFER writeFramebuffer,
           GLCall.blitFramebuffer src.x src.y src.z src.w dst.x dst.y dst.z dst.w
             mask GL_NEAREST,
           GLCall.bindFramebuffer GL_READ_FRAMEBUFFER restoreRead,
           GLCall.bindFramebuffer GL_DRAW_FRAMEBUFFER restoreWrite,
           GLCall.deleteFramebuffers readFramebuffer,
           GLCall.deleteFramebuffers writeFramebuffer,
           GLCall.postPendingErrors]
        verifyFailures := vfTex, warnings := 0, codingErrors := 0,
        outcome := Outcome.ok }
  | _, _ =>
      { state := s1, calls := createCalls, verifyFailures := 0, warnings := 0,
        codingErrors := 1, outcome := Outcome.ok }

/-- HgiGLOps::SetViewport: state-setting op, persists past the invocation. -/
def SetViewport (vp : GfVec4i) (s : GLState) : OpResult :=
  { state := { s with b := { s.b with viewportRect := vp } }
    calls := [GLCall.viewport vp.x vp.y vp.z vp.w]
    verifyFailures := 0, warnings := 0, codingErrors := 0, outcome := Outcome.ok }

/-- HgiGLOps::SetScissor: state-setting op, persists past the invocation. -/
def SetScissor (sc : GfVec4i) (s : GLState) : OpResult :=
  { state := { s with b := { s.b with scissorRect := sc } }
    calls := [GLCall.scissor sc.x sc.y sc.z sc.w]
    verifyFailures := 0, warnings := 0, codingErrors := 0, outcome := Outcome.ok }

/-- HgiGLOps::BindPipeline: null-tolerant; delegates to the pipeline's own
bind routine (not under src/, recorded as one delegation marker call) when
the handle resolves. -/
def BindPipeline (pipeline : Option Nat) (s : GLState) : OpResult :=
  match pipeline with
  | none => noopResult s
  | some p =>
      { state := s, calls := [GLCall.bindPipeline p], verifyFailures := 0,
        warnings := 0, codingErrors := 0, outcome := Outcome.ok }

/-- HgiGLOps::BindResources: null-tolerant; delegates to the binding set's
own bind routine (not under src/, recorded as one delegation marker call)
when the handle resolves. -/
def BindResources (res : Option Nat) (s : GLState) : OpResult :=
  match res with
  | none => noopResult s
  | some r =>
      { state := s, calls := [GLCall.bindResources r], verifyFailures := 0,
        warnings := 0, codingErrors := 0, outcome := Outcome.ok }

end HgiGLOps

namespace HgiGLOps

/-- Body of the loop in HgiGLOps::BindVertexBuffers, indexing the full
`byteOffsets` vector at the absolute index `i` exactly as the source does:
a null buffer handle is dereferenced without a check (undefined behaviour),
and `byteOffsets[i]` past the vector's end is an out-of-bounds access
(undefined behaviour).  Each completed iteration issues one
glBindVertexBuffer at slot `(firstBinding + i) mod 2^32` with the buffer's
declared vertex stride. -/
def bindVertexBuffersLoop (firstBinding : Nat) (byteOffsets : List Nat) :
    List (Option HgiGLBuffer) → Nat → GLState → List GLCall → Nat → OpResult
  | [], _, s, acc, vf =>
      { state := s, calls := acc ++ [GLCall.postPendingErrors],
        verifyFailures := vf, warnings := 0, codingErrors := 0,
        outcome := Outcome.ok }
  | none :: _, _, s, acc, vf =>
      { state := s, calls := acc, verifyFailures := vf, warnings := 0,
        codingErrors := 0, outcome := Outcome.nullDeref }
  | some buf :: rest, i, s, acc, vf =>
      let vf1 := vf +
        (if Nat.land buf.descriptor.usage HgiBufferUsageVertex ≠ 0 then 0 else 1)
      match byteOffsets[i]? with
      | none =>
          { state := s, calls := acc, verifyFailures := vf1, warnings := 0,
            codingErrors := 0, outcome := Outcome.oobIndex }
      | some off =>
          let slot := (firstBinding + i) % UINT32_MOD
          let vbb := setVertexBinding s.b.vertexBufferBindings slot
            (buf.bufferId, off, buf.descriptor.vertexStride)
          let s' := { s with b := { s.b with vertexBufferBindings := vbb } }
          bindVertexBuffersLoop firstBinding byteOffsets rest (i + 1) s'
            (acc ++ [GLCall.bindVertexBuffer slot buf.bufferId off
              buf.descriptor.vertexStride]) vf1

/-- HgiGLOps::BindVertexBuffers: the length check TF_VERIFY occurs twice in
the source, then the loop runs over every vertex buffer regardless of the
check's result. -/
def BindVertexBuffers (firstBinding : Nat)
    (vertexBuffers : List (Option HgiGLBuffer)) (byteOffsets : List Nat)
    (s : GLState) : OpResult :=
  let vf := if byteOffsets.length = vertexBuffers.length then 0 else 2
  bindVertexBuffersLoop firstBinding byteOffsets vertexBuffers 0 s [] vf

/-- HgiGLOps::DrawIndexed: asserts (non-fatally) instanceCount > 0,
dereferences the index buffer handle without a null check, asserts its
32-bit-index usage, binds it as the element array buffer (without saving or
restoring the prior binding), issues the instanced base-vertex draw
(`firstInstance` is captured but unused by the native call) and polls
errors. -/
def DrawIndexed (indexBuffer : Option HgiGLBuffer)
    (indexCount indexBufferByteOffset vertexOffset instanceCount
     firstInstance : Nat) (s : GLState) : OpResult :=
  let vf0 := if instanceCount > 0 then 0 else 1
  match indexBuffer with
  | none =>
      { state := s, calls := [], verifyFailures := vf0, warnings := 0,
        codingErrors := 0, outcome := Outcome.nullDeref }
  | some indexBuf =>
      let vf1 := vf0 +
        (if Nat.land indexBuf.descriptor.usage HgiBufferUsageIndex32 ≠ 0
         then 0 else 1)
      let _ := firstInstance
      { state := { s with b :=
          { s.b with elementArrayBuffer := indexBuf.bufferId } },
        calls := [GLCall.bindBuffer GL_ELEMENT_ARRAY_BUFFER indexBuf.bufferId,
          GLCall.drawElementsInstancedBaseVertex GL_TRIANGLES indexCount
            GL_UNSIGNED_INT indexBufferByteOffset instanceCount vertexOffset,
          GLCall.postPendingErrors],
        verifyFailures := vf1, warnings := 0, codingErrors := 0,
        outcome := Outcome.ok }

end HgiGLOps

/-- A color or depth attachment description (HgiAttachmentDesc).
`texture` is the native id of the texture wired to this attachment;
`clearValue` is an opaque token standing for the 4-float clear value, which
the op only passes through to glClearBufferfv. -/
structure HgiAttachmentDesc where
  texture : Nat
  loadOp : Nat
  clearValue : Nat
  blendEnabled : Bool
  srcColorBlendFactor : Nat
  dstColorBlendFactor : Nat
  srcAlphaBlendFactor : Nat
  dstAlphaBlendFactor : Nat
  colorBlendOp : Nat
  alphaBlendOp : Nat
deriving DecidableEq, Repr

/-- The encoder descriptor consumed by BindFramebufferOp
(HgiGraphicsEncoderDesc): color attachment descriptions, the depth
attachment description, and the depth texture handle. -/
structure HgiGraphicsEncoderDesc where
  colorAttachmentDescs : List HgiAttachmentDesc
  depthAttachmentDesc : HgiAttachmentDesc
  depthTexture : Option HgiGLTexture
deriving DecidableEq, Repr

/-- Modelled from the spec: HgiGraphicsEncoderDesc::HasAttachments is not
under src/; per the spec the descriptor "must declare at least one
attachment", so it holds when there is a color attachment or a depth
texture. -/
def HgiGraphicsEncoderDesc.HasAttachments (d : HgiGraphicsEncoderDesc) : Bool :=
  !d.colorAttachmentDescs.isEmpty || d.depthTexture.isSome

/-- Modelled from the spec: HgiGLDevice::AcquireFramebuffer is not under
src/ (only its caller BindFramebufferOp is).  Per the spec it acquires or
creates a framebuffer object for the attachment-set description and wires
the attachments to the texture handles; for descriptions with only a depth
attachment it binds an explicit GL_NONE color draw-buffer configuration
before the texture attach calls (the edge case of spec section 4.3, and the
pattern of ResolveImage in src/pxr/imaging/hgiGL/ops.cpp); with color
attachments it configures draw buffers COLOR_ATTACHMENT0+i before the
attach calls.  Returns the framebuffer id, its configuration call trace,
and the updated state. -/
def AcquireFramebuffer (desc : HgiGraphicsEncoderDesc) (s : GLState) :
    Nat × List GLCall × GLState :=
  let fb := s.nextFramebufferId
  let s' := { s with nextFramebufferId := s.nextFramebufferId + 1,
                     liveFramebuffers := s.liveFramebuffers ++ [fb] }
  let drawBufs :=
    if desc.colorAttachmentDescs.isEmpty then [GL_NONE]
    else (List.range desc.colorAttachmentDescs.length).map
      (fun i => GL_COLOR_ATTACHMENT0 + i)
  let colorAttachCalls :=
    ((List.range desc.colorAttachmentDescs.length).zip
      desc.colorAttachmentDescs).map
      (fun p => GLCall.namedFramebufferTexture fb (GL_COLOR_ATTACHMENT0 + p.1)
        p.2.texture 0)
  let depthAttachCalls :=
    match desc.depthTexture with
    | some t => [GLCall.namedFramebufferTexture fb GL_DEPTH_ATTACHMENT
        t.textureId 0]
    | none => []
  (fb, GLCall.namedFramebufferDrawBuffers fb drawBufs ::
    (colorAttachCalls ++ depthAttachCalls), s')

namespace HgiGLOps

/-- The per-color-attachment loop of HgiGLOps::BindFramebufferOp: for the
attachment at index `i`, a clear call when its load op is clear-on-load,
then the per-attachment blend function and equation calls; `blendEnabled`
accumulates the or of the attachments' blend requests. -/
def colorAttachmentLoop : List HgiAttachmentDesc → Nat → Bool →
    List GLCall × Bool
  | [], _, blendEnabled => ([], blendEnabled)
  | a :: rest, i, blendEnabled =>
      let clearCalls :=
        if a.loadOp = HgiAttachmentLoadOpClear
        then [GLCall.clearBufferfv GL_COLOR i a.clearValue] else []
      let blendCalls :=
        [GLCall.blendFuncSeparatei i
          (HgiGLConversions.GetBlendFactor a.srcColorBlendFactor)
          (HgiGLConversions.GetBlendFactor a.dstColorBlendFactor)
          (HgiGLConversions.GetBlendFactor a.srcAlphaBlendFactor)
          (HgiGLConversions.GetBlendFactor a.dstAlphaBlendFactor),
         GLCall.blendEquationSeparatei i
          (HgiGLConversions.GetBlendEquation a.colorBlendOp)
          (HgiGLConversions.GetBlendEquation a.alphaBlendOp)]
      let r := colorAttachmentLoop rest (i + 1) (blendEnabled || a.blendEnabled)
      (clearCalls ++ blendCalls ++ r.1, r.2)

/-- HgiGLOps::BindFramebufferOp: asserts (non-fatally) that the descriptor
has attachments, acquires a framebuffer for the attachment set, binds it on
GL_FRAMEBUFFER (both read and draw), applies per-color-attachment clears
and blend modes, the depth clear when a depth texture is present with a
clear load op, then globally enables blending when any color attachment
requested it and disables it otherwise, and polls errors. -/
def BindFramebufferOp (desc : HgiGraphicsEncoderDesc) (s : GLState) :
    OpResult :=
  let vf := if desc.HasAttachments then 0 else 1
  let acq := AcquireFramebuffer desc s
  let framebuffer := acq.1
  let s1 := acq.2.2
  let loopR := colorAttachmentLoop desc.colorAttachmentDescs 0 false
  let blendEnabled := loopR.2
  let depthClearCalls :=
    match desc.depthTexture with
    | some _ =>
        if desc.depthAttachmentDesc.loadOp = HgiAttachmentLoadOpClear
        then [GLCall.clearBufferfv GL_DEPTH 0
          desc.depthAttachmentDesc.clearValue]
        else []
    | none => []
  let blendCall :=
    if blendEnabled then GLCall.enable GL_BLEND else GLCall.disable GL_BLEND
  { state := { s1 with b := { s1.b with
      readFramebuffer := framebuffer,
      drawFramebuffer := framebuffer,
      blend := blendEnabled } },
    calls := acq.2.1 ++ [GLCall.bindFramebuffer GL_FRAMEBUFFER framebuffer] ++
      loopR.1 ++ depthClearCalls ++ [blendCall, GLCall.postPendingErrors],
    verifyFailures := vf, warnings := 0, codingErrors := 0,
    outcome := Outcome.ok }

end HgiGLOps

/-- The member state of HdxColorCorrectionTask that
_ApplyColorCorrection reads: the linked program id, the copy texture, the
3D LUT texture, the vertex buffer, the framebuffer size, the shader
locations and whether the OpenColorIO path is active (the
PXR_OCIO_PLUGIN_ENABLED build toggle together with the $OCIO environment
check). -/
structure HdxColorCorrectionParams where
  programId : Nat
  texture : Nat
  texture3dLUT : Nat
  vertexBuffer : Nat
  framebufferWidth : Int
  framebufferHeight : Int
  locColorIn : Nat
  locPosition : Nat
  locUvIn : Nat
  locLut3dIn : Nat
  ocioEnabled : Bool
deriving DecidableEq, Repr

namespace HdxColorCorrectionTask

/-- HdxColorCorrectionTask::_ApplyColorCorrection
(pxr/imaging/hdx/colorCorrectionTask.cpp): binds program, textures and the
vertex buffer for a full-screen triangle; saves the depth write mask, the
stencil write mask (read through glGetBooleanv, so only as a boolean), the
depth comparison function, the viewport, the blend enable and the
alpha-to-coverage enable; overrides them; draws; then restores them — the
stencil write mask via glStencilMask of the saved GLboolean, i.e. to 0 or
1; finally unbinds buffer, attributes, program and textures and polls
errors. -/
def ApplyColorCorrectionBindings (p : HdxColorCorrectionParams)
    (b0 : GLBindings) : GLBindings :=
  let b1 : GLBindings := { b0 with program := p.programId }
  let b2 : GLBindings := { b1 with activeTextureUnit := GL_TEXTURE0 }
  let tb3 := setAssoc b2.textureBindings2D b2.activeTextureUnit p.texture
  let b3 : GLBindings := { b2 with textureBindings2D := tb3 }
  let b4 : GLBindings :=
    if p.ocioEnabled then
      { b3 with texture3DEnabled := true,
                activeTextureUnit := GL_TEXTURE1,
                textureBindings3D :=
                  setAssoc b3.textureBindings3D GL_TEXTURE1 p.texture3dLUT }
    else b3
  let b5 : GLBindings := { b4 with arrayBuffer := p.vertexBuffer }
  let b6 : GLBindings :=
    { b5 with enabledVertexAttribs := p.locPosition :: b5.enabledVertexAttribs }
  let b7 : GLBindings :=
    { b6 with enabledVertexAttribs := p.locUvIn :: b6.enabledVertexAttribs }
  let restoreDepthWriteMask := b7.depthWriteMask
  let restoreStencilWriteMask := b7.stencilWriteMask != 0
  let b8 : GLBindings := { b7 with depthWriteMask := false, stencilWriteMask := 0 }
  let restoreDepthFn := b8.depthComparisonFn
  let b9 : GLBindings := { b8 with depthComparisonFn := GL_ALWAYS }
  let restoreViewport := b9.viewportRect
  let vpOverride : GfVec4i := { x := 0, y := 0, z := p.framebufferWidth, w := p.framebufferHeight }
  let b10 : GLBindings := { b9 with viewportRect := vpOverride }
  let restoreblendEnabled := b10.blend
  let b11 : GLBindings := { b10 with blend := false }
  let restoreAlphaToCoverage := b11.alphaToCoverage
  let b12 : GLBindings := { b11 with alphaToCoverage := false }
  let b13 : GLBindings :=
    if restoreAlphaToCoverage then { b12 with alphaToCoverage := true } else b12
  let b14 : GLBindings :=
    if restoreblendEnabled then { b13 with blend := true } else b13
  let b15 : GLBindings := { b14 with viewportRect := restoreViewport }
  let b16 : GLBindings := { b15 with depthComparisonFn := restoreDepthFn }
  let b17 : GLBindings := { b16 with depthWriteMask := restoreDepthWriteMask }
  let b18 : GLBindings :=
    { b17 with stencilWriteMask := if restoreStencilWriteMask then 1 else 0 }
  let b19 : GLBindings := { b18 with arrayBuffer := 0 }
  let b20 : GLBindings :=
    { b19 with enabledVertexAttribs := b19.enabledVertexAttribs.erase p.locPosition }
  let b21 : GLBindings :=
    { b20 with enabledVertexAttribs := b20.enabledVertexAttribs.erase p.locUvIn }
  let b22 : GLBindings := { b21 with program := 0 }
  let b23 : GLBindings := { b22 with activeTextureUnit := GL_TEXTURE0 }
  let tb24 := setAssoc b23.textureBindings2D GL_TEXTURE0 0
  let b24 : GLBindings := { b23 with textureBindings2D := tb24 }
  if p.ocioEnabled then
    { b24 with activeTextureUnit := GL_TEXTURE1,
               textureBindings3D := setAssoc b24.textureBindings3D GL_TEXTURE1 0,
               texture3DEnabled := false }
  else b24

/-- The native-call trace of _ApplyColorCorrection.  The saved values
(depth write mask, stencil write mask as a boolean, depth comparison
function, viewport, blend enable, alpha-to-coverage enable) are read from
the incoming bindings `b0`: in the source the glGet calls happen after the
program/texture/buffer binds, which do not touch those six pieces of
state. -/
def ApplyColorCorrectionCalls (p : HdxColorCorrectionParams)
    (b0 : GLBindings) : List GLCall :=
  let restoreStencilWriteMask := b0.stencilWriteMask != 0
  let restoreViewport := b0.viewportRect
  [GLCall.useProgram p.programId, GLCall.activeTexture GL_TEXTURE0,
    GLCall.bindTexture GL_TEXTURE_2D p.texture,
    GLCall.uniform1i p.locColorIn 0] ++
  (if p.ocioEnabled then
    [GLCall.enable GL_TEXTURE_3D, GLCall.activeTexture GL_TEXTURE1,
     GLCall.bindTexture GL_TEXTURE_3D p.texture3dLUT,
     GLCall.uniform1i p.locLut3dIn 1]
   else []) ++
  [GLCall.bindBuffer GL_ARRAY_BUFFER p.vertexBuffer,
   GLCall.vertexAttribPointer p.locPosition 4 24 0,
   GLCall.enableVertexAttribArray p.locPosition,
   GLCall.vertexAttribPointer p.locUvIn 2 24 16,
   GLCall.enableVertexAttribArray p.locUvIn,
   GLCall.depthMask false, GLCall.stencilMask 0,
   GLCall.depthFunc GL_ALWAYS,
   GLCall.viewport 0 0 p.framebufferWidth p.framebufferHeight,
   GLCall.disable GL_BLEND, GLCall.disable GL_SAMPLE_ALPHA_TO_COVERAGE,
   GLCall.drawArrays GL_TRIANGLES 0 3] ++
  (if b0.alphaToCoverage then
    [GLCall.enable GL_SAMPLE_ALPHA_TO_COVERAGE] else []) ++
  (if b0.blend then [GLCall.enable GL_BLEND] else []) ++
  [GLCall.viewport restoreViewport.x restoreViewport.y restoreViewport.z
     restoreViewport.w,
   GLCall.depthFunc b0.depthComparisonFn,
   GLCall.depthMask b0.depthWriteMask,
   GLCall.stencilMask (if restoreStencilWriteMask then 1 else 0),
   GLCall.bindBuffer GL_ARRAY_BUFFER 0,
   GLCall.disableVertexAttribArray p.locPosition,
   GLCall.disableVertexAttribArray p.locUvIn,
   GLCall.useProgram 0,
   GLCall.activeTexture GL_TEXTURE0, GLCall.bindTexture GL_TEXTURE_2D 0] ++
  (if p.ocioEnabled then
    [GLCall.activeTexture GL_TEXTURE1, GLCall.bindTexture GL_TEXTURE_3D 0,
     GLCall.disable GL_TEXTURE_3D]
   else []) ++
  [GLCall.postPendingErrors]

/-- HdxColorCorrectionTask::_ApplyColorCorrection as an op on the GL
state: final bindings from `ApplyColorCorrectionBindings`, native-call
trace from `ApplyColorCorrectionCalls`. -/
def ApplyColorCorrection (p : HdxColorCorrectionParams) (s : GLState) :
    OpResult :=
  { state := { s with b := ApplyColorCorrectionBindings p s.b },
    calls := ApplyColorCorrectionCalls p s.b,
    verifyFailures := 0, warnings := 0, codingErrors := 0,
    outcome := Outcome.ok }

end HdxColorCorrectionTask

/-! ## Concrete states and inputs used by closed evaluation theorems -/

/-- A concrete bindings record used as a generic prior state: default-like
values, with the GL-default all-ones stencil write mask and GL_LESS depth
function. -/
def bindings0 : GLBindings :=
  { readFramebuffer := 0, drawFramebuffer := 0, elementArrayBuffer := 0,
    arrayBuffer := 0, vertexBufferBindings := [],
    activeTextureUnit := GL_TEXTURE0, textureBindings2D := [],
    textureBindings3D := [], texture3DEnabled := false, program := 0,
    enabledVertexAttribs := [],
    viewportRect := { x := 0, y := 0, z := 0, w := 0 },
    scissorRect := { x := 0, y := 0, z := 0, w := 0 },
    blend := false, depthWriteMask := true,
    stencilWriteMask := 4294967295, depthComparisonFn := 513,
    alphaToCoverage := false }

/-- A concrete full GL state built on `bindings0`, with no framebuffer
objects alive and 1 as the next fresh framebuffer name. -/
def state0 : GLState :=
  { b := bindings0, nextFramebufferId := 1, liveFramebuffers := [] }

/-- A one-layer color-target texture with native id 1, used by the
CopyTextureGpuToCpu layer-overflow evaluation. -/
def c3TexDesc : HgiTextureDesc :=
  { usage := HgiTextureUsageBitsColorTarget, format := 0,
    dimX := 4, dimY := 4, dimZ := 1, layerCount := 1 }

def c3Tex : HgiGLTexture :=
  { textureId := 1, descriptor := c3TexDesc }

/-- A copy descriptor whose 32-bit sum startLayer + numLayers wraps to 1:
startLayer = 2^32 - 1, numLayers = 2, against a texture with 1 layer. -/
def c3Op : HgiTextureGpuToCpuOp :=
  { gpuSourceTexture := some c3Tex, sourceTexelOffsetX := 0,
    sourceTexelOffsetY := 0, sourceTexelOffsetZ := 0, mipLevel := 0,
    startLayer := 4294967295, numLayers := 2,
    destinationBufferByteSize := 4, cpuDestinationBuffer := 1 }

/-- A resolve descriptor whose source texture handle is absent. -/
def c2Op : HgiResolveImageOp :=
  { usage := HgiTextureUsageBitsColorTarget, source := none,
    destination := none,
    sourceRegion := { x := 0, y := 0, z := 4, w := 4 },
    destinationRegion := { x := 0, y := 0, z := 4, w := 4 } }

/-- A 32-bit-index buffer with native id 7. -/
def c1Buf : HgiGLBuffer :=
  { bufferId := 7,
    descriptor := { usage := HgiBufferUsageIndex32, vertexStride := 0 } }

/-! ## Claim theorems -/

/-- C9: for every CopyBufferCpuToGpu descriptor with byteSize 0, or an
absent source pointer, or an absent destination buffer handle, the
invocation issues zero native calls (in particular no write and no
buffer-update barrier) and leaves the GL state unchanged. -/
theorem C9_copyBufferCpuToGpu_noop (op : HgiBufferCpuToGpuOp) (s : GLState)
    (h : op.byteSize = 0 ∨ op.cpuSourceBuffer = 0 ∨
      op.gpuDestinationBuffer = none) :
    (HgiGLOps.CopyBufferCpuToGpu op s).calls = [] ∧
    (HgiGLOps.CopyBufferCpuToGpu op s).state = s := by
  unfold HgiGLOps.CopyBufferCpuToGpu
  cases hd : op.gpuDestinationBuffer with
  | none => exact ⟨rfl, rfl⟩
  | some glBuffer =>
      rcases h with h | h | h
      · simp [h, noopResult]
      · simp [h, noopResult]
      · rw [hd] at h; exact absurd h (by simp)

/-- Witness for C9 at a concrete zero-size descriptor. -/
theorem C9_copyBufferCpuToGpu_noop_witness :
    (HgiGLOps.CopyBufferCpuToGpu
      { byteSize := 0, cpuSourceBuffer := 5, sourceByteOffset := 0,
        gpuDestinationBuffer := none, destinationByteOffset := 0 }
      state0).calls = [] ∧
    (HgiGLOps.CopyBufferCpuToGpu
      { byteSize := 0, cpuSourceBuffer := 5, sourceByteOffset := 0,
        gpuDestinationBuffer := none, destinationByteOffset := 0 }
      state0).state = state0 :=
  C9_copyBufferCpuToGpu_noop _ state0 (Or.inl rfl)

/-- C3 (code bug): the layer-range guard of CopyTextureGpuToCpu computes
startLayer + numLayers in wrapping 32-bit arithmetic, so at
startLayer = 2^32 - 1, numLayers = 2 against a 1-layer texture the
requested range exceeds the texture's layer count, yet the op does not
return early: it issues the memory barrier (and the readback after it). -/
theorem C3_copyTexture_layer_overflow :
    c3Op.startLayer + c3Op.numLayers = 4294967297 ∧
    c3Tex.descriptor.layerCount = 1 ∧
    (HgiGLOps.CopyTextureGpuToCpu c3Op state0).calls.head? =
      some (GLCall.memoryBarrier GL_ALL_BARRIER_BITS) ∧
    (HgiGLOps.CopyTextureGpuToCpu c3Op state0).calls.length = 3 := by
  decide

/-- C2 (code bug): ResolveImage creates its two ephemeral framebuffers
before validating the texture handles; on the early return taken when a
texture handle is absent, both framebuffer objects are still alive when the
op returns (no delete call is issued), though the read/draw framebuffer
bindings are untouched on this path. -/
theorem C2_resolveImage_leak_on_early_return :
    (HgiGLOps.ResolveImage c2Op state0).state.liveFramebuffers = [1, 2] ∧
    state0.liveFramebuffers = [] ∧
    (HgiGLOps.ResolveImage c2Op state0).calls =
      [GLCall.createFramebuffers 1, GLCall.createFramebuffers 2] ∧
    (HgiGLOps.ResolveImage c2Op state0).codingErrors = 1 ∧
    (HgiGLOps.ResolveImage c2Op state0).state.b = state0.b := by
  decide

/-- C1 counterexample: DrawIndexed is not documented as a state-setting op,
yet it mutates the element-array-buffer binding (a piece of global vertex
array/buffer binding state) and does not restore it before returning: from
a state where the binding is 0 and an index buffer with id 7, the binding
is 7 after the invocation. -/
theorem C1_drawIndexed_binding_not_restored :
    (HgiGLOps.DrawIndexed (some c1Buf) 3 0 0 1 0 state0).state.b.elementArrayBuffer
      = 7 ∧
    state0.b.elementArrayBuffer = 0 := by
  decide

/-- C4 counterexample: SetViewport issues a native call (glViewport) and
does not poll pending native errors at the end of its invocation. -/
theorem C4_setViewport_no_error_poll :
    (HgiGLOps.SetViewport { x := 0, y := 0, z := 100, w := 100 } state0).calls
      = [GLCall.viewport 0 0 100 100] ∧
    GLCall.postPendingErrors ∉
      (HgiGLOps.SetViewport { x := 0, y := 0, z := 100, w := 100 } state0).calls := by
  decide

/-- C1 (amended): every op that is neither a documented state-setting op
nor one of BindVertexBuffers / DrawIndexed — that is, PushDebugGroup,
PopDebugGroup, CopyTextureGpuToCpu, CopyBufferCpuToGpu and ResolveImage —
leaves every piece of global GPU binding state with the value it had before
the invocation (for ResolveImage, on every path including the early
return); DrawIndexed, however, does not restore the binding it mutates: it
leaves the element-array-buffer binding set to its index buffer. -/
theorem C1_state_transparency :
    (∀ (khr : Bool) (label : String) (s : GLState),
      (HgiGLOps.PushDebugGroup khr label s).state = s) ∧
    (∀ (khr : Bool) (s : GLState), (HgiGLOps.PopDebugGroup khr s).state = s) ∧
    (∀ (op : HgiTextureGpuToCpuOp) (s : GLState),
      (HgiGLOps.CopyTextureGpuToCpu op s).state = s) ∧
    (∀ (op : HgiBufferCpuToGpuOp) (s : GLState),
      (HgiGLOps.CopyBufferCpuToGpu op s).state = s) ∧
    (∀ (rop : HgiResolveImageOp) (s : GLState),
      (HgiGLOps.ResolveImage rop s).state.b = s.b) ∧
    (∀ (buf : HgiGLBuffer) (n off voff inst fi : Nat) (s : GLState),
      (HgiGLOps.DrawIndexed (some buf) n off voff inst fi s).state.b.elementArrayBuffer
        = buf.bufferId) := by
  refine ⟨?_, ?_, ?_, ?_, ?_, ?_⟩
  · intro khr label s; rfl
  · intro khr s; rfl
  · intro op s
    unfold HgiGLOps.CopyTextureGpuToCpu
    cases op.gpuSourceTexture with
    | none => rfl
    | some t =>
        simp only []
        split
        · rfl
        · split
          · rfl
          · split
            · rfl
            · rfl
  · intro op s
    unfold HgiGLOps.CopyBufferCpuToGpu
    cases op.gpuDestinationBuffer with
    | none => rfl
    | some glBuffer =>
        simp only []
        split
        · rfl
        · rfl
  · intro rop s
    unfold HgiGLOps.ResolveImage
    cases hs : rop.source with
    | none => rfl
    | some srcT =>
        cases hd : rop.destination with
        | none => rfl
        | some dstT => rfl
  · intro buf n off voff inst fi s; rfl

/-- The last element of an append is the last element of the second part. -/
lemma getLast?_append_right {α : Type} (l₁ l₂ : List α) (a : α)
    (h : l₂.getLast? = some a) : (l₁ ++ l₂).getLast? = some a := by
  have hne : l₂ ≠ [] := by
    intro hn
    rw [hn] at h
    exact Option.noConfusion h
  rw [List.getLast?_append_of_ne_nil l₁ hne, h]

/-- An invocation of the BindVertexBuffers loop that completes normally
ends its call trace with the error poll. -/
lemma bindVertexBuffersLoop_ok_getLast (fb : Nat) (offs : List Nat) :
    ∀ (bufs : List (Option HgiGLBuffer)) (i : Nat) (s : GLState)
      (acc : List GLCall) (vf : Nat),
      (HgiGLOps.bindVertexBuffersLoop fb offs bufs i s acc vf).outcome =
        Outcome.ok →
      (HgiGLOps.bindVertexBuffersLoop fb offs bufs i s acc vf).calls.getLast? =
        some GLCall.postPendingErrors := by
  intro bufs
  induction bufs with
  | nil =>
      intro i s acc vf _
      exact getLast?_append_right _ _ _ rfl
  | cons b rest ih =>
      intro i s acc vf h
      cases b with
      | none => exact Outcome.noConfusion h
      | some buf =>
          unfold HgiGLOps.bindVertexBuffersLoop at h ⊢
          revert h
          cases ho : offs[i]? with
          | none => intro h; exact Outcome.noConfusion h
          | some off => intro h; exact ih _ _ _ _ h

/-- C4 (amended): the ops that poll pending native errors at the end of an
invocation that issues native calls are CopyTextureGpuToCpu (its complete
path), ResolveImage (its complete path), BindVertexBuffers (completed
invocations), DrawIndexed and BindFramebufferOp; SetViewport, SetScissor,
CopyBufferCpuToGpu, BindPipeline and BindResources issue native calls but
never poll. -/
theorem C4_error_polling :
    (∀ (vp : GfVec4i) (s : GLState),
      (HgiGLOps.SetViewport vp s).calls ≠ [] ∧
      GLCall.postPendingErrors ∉ (HgiGLOps.SetViewport vp s).calls) ∧
    (∀ (sc : GfVec4i) (s : GLState),
      (HgiGLOps.SetScissor sc s).calls ≠ [] ∧
      GLCall.postPendingErrors ∉ (HgiGLOps.SetScissor sc s).calls) ∧
    (∀ (op : HgiBufferCpuToGpuOp) (s : GLState),
      GLCall.postPendingErrors ∉ (HgiGLOps.CopyBufferCpuToGpu op s).calls) ∧
    (∀ (p : Option Nat) (s : GLState),
      GLCall.postPendingErrors ∉ (HgiGLOps.BindPipeline p s).calls) ∧
    (∀ (r : Option Nat) (s : GLState),
      GLCall.postPendingErrors ∉ (HgiGLOps.BindResources r s).calls) ∧
    (∀ (op : HgiTextureGpuToCpuOp) (s : GLState),
      (HgiGLOps.CopyTextureGpuToCpu op s).calls ≠ [] →
      (HgiGLOps.CopyTextureGpuToCpu op s).calls.getLast? =
        some GLCall.postPendingErrors) ∧
    (∀ (usage : Nat) (src dst : HgiGLTexture) (sr dr : GfVec4i) (s : GLState),
      (HgiGLOps.ResolveImage
        { usage := usage, source := some src, destination := some dst,
          sourceRegion := sr, destinationRegion := dr } s).calls.getLast? =
        some GLCall.postPendingErrors) ∧
    (∀ (fb : Nat) (bufs : List (Option HgiGLBuffer)) (offs : List Nat)
       (s : GLState),
      (HgiGLOps.BindVertexBuffers fb bufs offs s).outcome = Outcome.ok →
      (HgiGLOps.BindVertexBuffers fb bufs offs s).calls.getLast? =
        some GLCall.postPendingErrors) ∧
    (∀ (buf : HgiGLBuffer) (n off voff inst fi : Nat) (s : GLState),
      (HgiGLOps.DrawIndexed (some buf) n off voff inst fi s).calls.getLast? =
        some GLCall.postPendingErrors) ∧
    (∀ (desc : HgiGraphicsEncoderDesc) (s : GLState),
      (HgiGLOps.BindFramebufferOp desc s).calls.getLast? =
        some GLCall.postPendingErrors) := by
  refine ⟨?_, ?_, ?_, ?_, ?_, ?_, ?_, ?_, ?_, ?_⟩
  · intro vp s
    exact ⟨by simp [HgiGLOps.SetViewport], by simp [HgiGLOps.SetViewport]⟩
  · intro sc s
    exact ⟨by simp [HgiGLOps.SetScissor], by simp [HgiGLOps.SetScissor]⟩
  · intro op s
    unfold HgiGLOps.CopyBufferCpuToGpu
    cases op.gpuDestinationBuffer with
    | none => simp [noopResult]
    | some glBuffer =>
        simp only []
        split
        · simp [noopResult]
        · simp
  · intro p s
    cases p with
    | none => simp [HgiGLOps.BindPipeline, noopResult]
    | some q => simp [HgiGLOps.BindPipeline]
  · intro r s
    cases r with
    | none => simp [HgiGLOps.BindResources, noopResult]
    | some q => simp [HgiGLOps.BindResources]
  · intro op s
    unfold HgiGLOps.CopyTextureGpuToCpu
    cases op.gpuSourceTexture with
    | none => intro h; exact absurd rfl h
    | some t =>
        dsimp only
        by_cases h1 : t.textureId = 0
        · rw [if_pos h1]; intro h; exact absurd rfl h
        · rw [if_neg h1]
          by_cases h2 : op.destinationBufferByteSize = 0
          · rw [if_pos h2]; intro h; exact absurd rfl h
          · rw [if_neg h2]
            by_cases h3 : t.descriptor.layerCount <
              (op.startLayer + op.numLayers) % UINT32_MOD
            · rw [if_pos h3]; intro h; exact absurd rfl h
            · rw [if_neg h3]; intro h; rfl
  · intro usage src dst sr dr s
    exact getLast?_append_right _ _ _ rfl
  · intro fb bufs offs s h
    exact bindVertexBuffersLoop_ok_getLast fb offs bufs 0 s [] _ h
  · intro buf n off voff inst fi s; rfl
  · intro desc s
    exact getLast?_append_right _ _ _ rfl

/-- Witness for C4's amended theorem: BindVertexBuffers on empty vectors
completes normally, and its (completed) invocation ends with the error
poll. -/
theorem C4_error_polling_witness :
    (HgiGLOps.BindVertexBuffers 0 [] [] state0).outcome = Outcome.ok ∧
    (HgiGLOps.BindVertexBuffers 0 [] [] state0).calls.getLast? =
      some GLCall.postPendingErrors :=
  ⟨rfl, (C4_error_polling.2.2.2.2.2.2.2.1) 0 [] [] state0 rfl⟩

/-- The call sequence the spec prescribes for BindVertexBuffers: one
glBindVertexBuffer per (buffer, byte offset) pair, at consecutive binding
slots starting at the given slot, each with the buffer's declared vertex
stride. -/
def bindCallsSpec : Nat → List (HgiGLBuffer × Nat) → List GLCall
  | _, [] => []
  | slot, (buf, off) :: rest =>
      GLCall.bindVertexBuffer slot buf.bufferId off buf.descriptor.vertexStride ::
        bindCallsSpec (slot + 1) rest

/-- Calls of the BindVertexBuffers loop over valid handles, while the
offsets vector covers the remaining indices and the slot arithmetic does
not wrap. -/
lemma bindVertexBuffersLoop_calls (fb : Nat) (offs : List Nat) :
    ∀ (bufs : List HgiGLBuffer) (i : Nat) (s : GLState) (acc : List GLCall)
      (vf : Nat),
      i + bufs.length ≤ offs.length →
      fb + i + bufs.length ≤ UINT32_MOD →
      (HgiGLOps.bindVertexBuffersLoop fb offs (bufs.map some) i s acc vf).calls =
        acc ++ bindCallsSpec (fb + i) (bufs.zip (offs.drop i)) ++
          [GLCall.postPendingErrors] := by
  intro bufs
  induction bufs with
  | nil =>
      intro i s acc vf h1 h2
      simp [HgiGLOps.bindVertexBuffersLoop, bindCallsSpec]
  | cons buf rest ih =>
      intro i s acc vf h1 h2
      have hi : i < offs.length := by
        simp only [List.length_cons] at h1
        omega
      have ho : offs[i]? = some offs[i] := List.getElem?_eq_getElem hi
      have hdrop : offs.drop i = offs[i] :: offs.drop (i + 1) :=
        List.drop_eq_getElem_cons hi
      have hslot : (fb + i) % UINT32_MOD = fb + i := by
        apply Nat.mod_eq_of_lt
        simp only [List.length_cons] at h2
        omega
      show (HgiGLOps.bindVertexBuffersLoop fb offs
        (some buf :: rest.map some) i s acc vf).calls = _
      unfold HgiGLOps.bindVertexBuffersLoop
      rw [ho]
      dsimp only
      rw [ih (i + 1) _ _ _ (by simp only [List.length_cons] at h1; omega)
        (by simp only [List.length_cons] at h2; omega)]
      rw [hdrop, List.zip_cons_cons, bindCallsSpec, hslot]
      simp [List.append_assoc]
      rw [Nat.add_assoc fb i 1]

/-- The verify-failure count of the BindVertexBuffers loop never drops
below its initial value. -/
lemma bindVertexBuffersLoop_vf_le (fb : Nat) (offs : List Nat) :
    ∀ (bufs : List (Option HgiGLBuffer)) (i : Nat) (s : GLState)
      (acc : List GLCall) (vf : Nat),
      vf ≤ (HgiGLOps.bindVertexBuffersLoop fb offs bufs i s acc vf).verifyFailures := by
  intro bufs
  induction bufs with
  | nil => intro i s acc vf; exact Nat.le_refl vf
  | cons b rest ih =>
      intro i s acc vf
      cases b with
      | none => exact Nat.le_refl vf
      | some buf =>
          unfold HgiGLOps.bindVertexBuffersLoop
          cases ho : offs[i]? with
          | none => exact Nat.le_add_right vf _
          | some off =>
              exact Nat.le_trans (Nat.le_add_right vf _) (ih _ _ _ _)

/-- C6: given N buffer handles (all resolving to buffers) and N byte
offsets, with firstBinding + N within uint32 range, BindVertexBuffers
issues exactly one glBindVertexBuffer per buffer at the consecutive slots
firstBinding, firstBinding+1, ..., firstBinding+N-1, each with the
corresponding byte offset and the buffer's declared vertex stride (then the
error poll); and when the offsets length differs from the buffers length it
raises a non-fatal assertion (a positive verify-failure count). -/
theorem C6_bindVertexBuffers :
    (∀ (firstBinding : Nat) (bufs : List HgiGLBuffer) (offs : List Nat)
       (s : GLState),
      offs.length = bufs.length →
      firstBinding + bufs.length ≤ UINT32_MOD →
      (HgiGLOps.BindVertexBuffers firstBinding (bufs.map some) offs s).calls =
        bindCallsSpec firstBinding (bufs.zip offs) ++
          [GLCall.postPendingErrors]) ∧
    (∀ (firstBinding : Nat) (bufs : List (Option HgiGLBuffer))
       (offs : List Nat) (s : GLState),
      offs.length ≠ bufs.length →
      1 ≤ (HgiGLOps.BindVertexBuffers firstBinding bufs offs s).verifyFailures) := by
  constructor
  · intro fb bufs offs s hlen hfb
    unfold HgiGLOps.BindVertexBuffers
    rw [bindVertexBuffersLoop_calls fb offs bufs 0 s [] _ (by omega)
      (by omega)]
    simp
  · intro fb bufs offs s hlen
    unfold HgiGLOps.BindVertexBuffers
    rw [if_neg hlen]
    exact Nat.le_trans (by omega)
      (bindVertexBuffersLoop_vf_le fb offs bufs 0 s [] 2)

/-- A vertex buffer with id 7 and stride 16, for the C6 witness. -/
def c6Buf : HgiGLBuffer :=
  { bufferId := 7,
    descriptor := { usage := HgiBufferUsageVertex, vertexStride := 16 } }

/-- Witness for C6 at one buffer and one offset: the single bind call at
slot 5 with offset 32 and the buffer's stride, then the poll. -/
theorem C6_bindVertexBuffers_witness :
    (HgiGLOps.BindVertexBuffers 5 [some c6Buf] [32] state0).calls =
      bindCallsSpec 5 [(c6Buf, 32)] ++ [GLCall.postPendingErrors] :=
  C6_bindVertexBuffers.1 5 [c6Buf] [32] state0 rfl (by decide)

/-- With valid handles and the offsets vector exhausted before the buffers
vector, the BindVertexBuffers loop ends in an out-of-bounds access. -/
lemma bindVertexBuffersLoop_oob (fb : Nat) (offs : List Nat) :
    ∀ (bufs : List HgiGLBuffer) (i : Nat) (s : GLState) (acc : List GLCall)
      (vf : Nat),
      i ≤ offs.length →
      offs.length < i + bufs.length →
      (HgiGLOps.bindVertexBuffersLoop fb offs (bufs.map some) i s acc vf).outcome =
        Outcome.oobIndex := by
  intro bufs
  induction bufs with
  | nil =>
      intro i s acc vf h1 h2
      exfalso
      simp only [List.length_nil] at h2
      omega
  | cons buf rest ih =>
      intro i s acc vf h1 h2
      show (HgiGLOps.bindVertexBuffersLoop fb offs
        (some buf :: rest.map some) i s acc vf).outcome = _
      unfold HgiGLOps.bindVertexBuffersLoop
      by_cases hi : i < offs.length
      · rw [List.getElem?_eq_getElem hi]
        dsimp only
        exact ih (i + 1) _ _ _ (by omega)
          (by simp only [List.length_cons] at h2; omega)
      · rw [List.getElem?_eq_none (by omega)]

/-- A null handle in the buffer list is dereferenced by the
BindVertexBuffers loop as soon as it is reached. -/
lemma bindVertexBuffersLoop_nullDeref (fb : Nat) (offs : List Nat) :
    ∀ (pre : List HgiGLBuffer) (post : List (Option HgiGLBuffer)) (i : Nat)
      (s : GLState) (acc : List GLCall) (vf : Nat),
      i + pre.length ≤ offs.length →
      (HgiGLOps.bindVertexBuffersLoop fb offs
        (pre.map some ++ none :: post) i s acc vf).outcome =
        Outcome.nullDeref := by
  intro pre
  induction pre with
  | nil => intro post i s acc vf _; rfl
  | cons buf rest ih =>
      intro post i s acc vf h
      show (HgiGLOps.bindVertexBuffersLoop fb offs
        (some buf :: (rest.map some ++ none :: post)) i s acc vf).outcome = _
      unfold HgiGLOps.bindVertexBuffersLoop
      have hi : i < offs.length := by
        simp only [List.length_cons] at h
        omega
      rw [List.getElem?_eq_getElem hi]
      dsimp only
      exact ih post (i + 1) _ _ _
        (by simp only [List.length_cons] at h; omega)

/-- C10: when byteOffsets is strictly shorter than vertexBuffers (all of
whose handles resolve), the loop still runs past the offsets vector and
indexes it out of bounds, after having raised the (doubled) non-fatal
length assertion; a null buffer handle anywhere in the list is dereferenced
without a check (undefined behaviour); by contrast BindPipeline and
BindResources tolerate a null handle as a complete no-op. -/
theorem C10_bindVertexBuffers_unsafe :
    (∀ (fb : Nat) (bufs : List HgiGLBuffer) (offs : List Nat) (s : GLState),
      offs.length < bufs.length →
      (HgiGLOps.BindVertexBuffers fb (bufs.map some) offs s).outcome =
        Outcome.oobIndex ∧
      2 ≤ (HgiGLOps.BindVertexBuffers fb (bufs.map some) offs s).verifyFailures) ∧
    (∀ (fb : Nat) (pre : List HgiGLBuffer) (post : List (Option HgiGLBuffer))
       (offs : List Nat) (s : GLState),
      pre.length ≤ offs.length →
      (HgiGLOps.BindVertexBuffers fb (pre.map some ++ none :: post) offs s).outcome =
        Outcome.nullDeref) ∧
    (∀ (s : GLState), HgiGLOps.BindPipeline none s = noopResult s) ∧
    (∀ (s : GLState), HgiGLOps.BindResources none s = noopResult s) := by
  refine ⟨?_, ?_, ?_, ?_⟩
  · intro fb bufs offs s h
    constructor
    · exact bindVertexBuffersLoop_oob fb offs bufs 0 s []
        _ (by omega) (by omega)
    · unfold HgiGLOps.BindVertexBuffers
      rw [if_neg (by simp only [List.length_map]; omega)]
      exact Nat.le_trans (Nat.le_refl 2)
        (bindVertexBuffersLoop_vf_le fb offs (bufs.map some) 0 s [] 2)
  · intro fb pre post offs s h
    exact bindVertexBuffersLoop_nullDeref fb offs pre post 0 s [] _ (by omega)
  · intro s; rfl
  · intro s; rfl

/-- A vertex buffer with id 9 and stride 12, for the C10 witness. -/
def c10Buf : HgiGLBuffer :=
  { bufferId := 9,
    descriptor := { usage := HgiBufferUsageVertex, vertexStride := 12 } }

/-- Witness for C10: one valid buffer and an empty offsets vector yield the
out-of-bounds outcome with the doubled assertion recorded. -/
theorem C10_bindVertexBuffers_unsafe_witness :
    (HgiGLOps.BindVertexBuffers 0 [some c10Buf] [] state0).outcome =
      Outcome.oobIndex ∧
    2 ≤ (HgiGLOps.BindVertexBuffers 0 [some c10Buf] [] state0).verifyFailures :=
  C10_bindVertexBuffers_unsafe.1 0 [c10Buf] [] state0 (by decide)

/-- C5: for every attachment-set description declaring only a depth
attachment and no color attachment, the BindFramebufferOp invocation's
call trace starts with the explicit GL_NONE color-draw-buffer configuration
on the acquired framebuffer, followed by the depth texture attach — so the
draw-buffer configuration call precedes every texture-attach call on that
framebuffer. -/
theorem C5_depth_only_null_drawbuffer_first (desc : HgiGraphicsEncoderDesc)
    (s : GLState) (t : HgiGLTexture) (hc : desc.colorAttachmentDescs = [])
    (hd : desc.depthTexture = some t) :
    (HgiGLOps.BindFramebufferOp desc s).calls[0]? =
      some (GLCall.namedFramebufferDrawBuffers s.nextFramebufferId [GL_NONE]) ∧
    (HgiGLOps.BindFramebufferOp desc s).calls[1]? =
      some (GLCall.namedFramebufferTexture s.nextFramebufferId
        GL_DEPTH_ATTACHMENT t.textureId 0) ∧
    (∀ (j att tex lev : Nat),
      (HgiGLOps.BindFramebufferOp desc s).calls[j]? =
        some (GLCall.namedFramebufferTexture s.nextFramebufferId att tex lev) →
      1 ≤ j) := by
  have h0 : (HgiGLOps.BindFramebufferOp desc s).calls[0]? =
      some (GLCall.namedFramebufferDrawBuffers s.nextFramebufferId [GL_NONE]) := by
    simp [HgiGLOps.BindFramebufferOp, AcquireFramebuffer, hc, hd,
      HgiGLOps.colorAttachmentLoop]
  have h1 : (HgiGLOps.BindFramebufferOp desc s).calls[1]? =
      some (GLCall.namedFramebufferTexture s.nextFramebufferId
        GL_DEPTH_ATTACHMENT t.textureId 0) := by
    simp [HgiGLOps.BindFramebufferOp, AcquireFramebuffer, hc, hd,
      HgiGLOps.colorAttachmentLoop]
  refine ⟨h0, h1, ?_⟩
  intro j att tex lev hj
  cases j with
  | zero =>
      rw [h0] at hj
      exact absurd (Option.some.inj hj) (by simp)
  | succ n => exact Nat.succ_le_succ (Nat.zero_le n)

/-- Descriptor of the depth texture used by the C5 witness. -/
def c5TexDesc : HgiTextureDesc :=
  { usage := HgiTextureUsageBitsDepthTarget, format := HgiFormatFloat32,
    dimX := 4, dimY := 4, dimZ := 1, layerCount := 1 }

/-- A depth texture with id 3, for the C5 witness. -/
def c5Tex : HgiGLTexture :=
  { textureId := 3, descriptor := c5TexDesc }

/-- A plain depth attachment description, for the C5 witness. -/
def c5Att : HgiAttachmentDesc :=
  { texture := 3, loadOp := HgiAttachmentLoadOpDontCare, clearValue := 0,
    blendEnabled := false, srcColorBlendFactor := 0,
    dstColorBlendFactor := 0, srcAlphaBlendFactor := 0,
    dstAlphaBlendFactor := 0, colorBlendOp := 0, alphaBlendOp := 0 }

/-- A depth-only encoder descriptor, for the C5 witness. -/
def c5Desc : HgiGraphicsEncoderDesc :=
  { colorAttachmentDescs := [], depthAttachmentDesc := c5Att,
    depthTexture := some c5Tex }

/-- Witness for C5 at the concrete depth-only descriptor. -/
theorem C5_depth_only_null_drawbuffer_first_witness :
    (HgiGLOps.BindFramebufferOp c5Desc state0).calls[0]? =
      some (GLCall.namedFramebufferDrawBuffers 1 [GL_NONE]) ∧
    (HgiGLOps.BindFramebufferOp c5Desc state0).calls[1]? =
      some (GLCall.namedFramebufferTexture 1 GL_DEPTH_ATTACHMENT 3 0) := by
  have h := C5_depth_only_null_drawbuffer_first c5Desc state0 c5Tex rfl rfl
  exact ⟨h.1, h.2.1⟩

/-- The accumulated blend flag of the color-attachment loop is the or of
the incoming flag with the attachments' blend requests. -/
lemma colorAttachmentLoop_blend :
    ∀ (l : List HgiAttachmentDesc) (i : Nat) (acc : Bool),
      (HgiGLOps.colorAttachmentLoop l i acc).2 =
        (acc || l.any (fun a => a.blendEnabled)) := by
  intro l
  induction l with
  | nil => intro i acc; simp [HgiGLOps.colorAttachmentLoop]
  | cons a rest ih =>
      intro i acc
      unfold HgiGLOps.colorAttachmentLoop
      dsimp only
      rw [ih (i + 1) (acc || a.blendEnabled)]
      simp [Bool.or_assoc]

/-- The color-attachment loop emits the clear call for every attachment
whose load op is clear-on-load, at that attachment's index. -/
lemma colorAttachmentLoop_clear_mem :
    ∀ (l : List HgiAttachmentDesc) (i k : Nat) (acc : Bool)
      (a : HgiAttachmentDesc),
      l[k]? = some a →
      a.loadOp = HgiAttachmentLoadOpClear →
      GLCall.clearBufferfv GL_COLOR (i + k) a.clearValue ∈
        (HgiGLOps.colorAttachmentLoop l i acc).1 := by
  intro l
  induction l with
  | nil => intro i k acc a h _; exact absurd h (by simp)
  | cons b rest ih =>
      intro i k acc a h hload
      unfold HgiGLOps.colorAttachmentLoop
      dsimp only
      cases k with
      | zero =>
          have hb : b = a := by simpa using h
          subst hb
          rw [if_pos hload]
          simp
      | succ n =>
          have hrest : rest[n]? = some a := by simpa using h
          have hmem := ih (i + 1) n (acc || b.blendEnabled) a hrest hload
          have hidx : i + 1 + n = i + (n + 1) := by omega
          rw [hidx] at hmem
          simp [hmem]

/-- C7: BindFramebufferOp leaves global blending enabled if and only if at
least one color attachment requests blending (the final blend state equals
the disjunction of the attachments' blend requests, and the corresponding
enable/disable call is issued); and for each color attachment whose load op
is clear-on-load it issues the clear of that attachment's buffer index with
that attachment's clear value. -/
theorem C7_bindFramebufferOp_blend_and_clear :
    (∀ (desc : HgiGraphicsEncoderDesc) (s : GLState),
      (HgiGLOps.BindFramebufferOp desc s).state.b.blend =
        desc.colorAttachmentDescs.any (fun a => a.blendEnabled)) ∧
    (∀ (desc : HgiGraphicsEncoderDesc) (s : GLState),
      (if desc.colorAttachmentDescs.any (fun a => a.blendEnabled)
       then GLCall.enable GL_BLEND else GLCall.disable GL_BLEND) ∈
        (HgiGLOps.BindFramebufferOp desc s).calls) ∧
    (∀ (desc : HgiGraphicsEncoderDesc) (s : GLState) (k : Nat)
       (a : HgiAttachmentDesc),
      desc.colorAttachmentDescs[k]? = some a →
      a.loadOp = HgiAttachmentLoadOpClear →
      GLCall.clearBufferfv GL_COLOR k a.clearValue ∈
        (HgiGLOps.BindFramebufferOp desc s).calls) := by
  refine ⟨?_, ?_, ?_⟩
  · intro desc s
    show (HgiGLOps.colorAttachmentLoop desc.colorAttachmentDescs 0 false).2 = _
    rw [colorAttachmentLoop_blend]
    simp
  · intro desc s
    unfold HgiGLOps.BindFramebufferOp
    dsimp only
    rw [colorAttachmentLoop_blend desc.colorAttachmentDescs 0 false]
    simp
  · intro desc s k a h hload
    have hmem := colorAttachmentLoop_clear_mem desc.colorAttachmentDescs
      0 k false a h hload
    simp only [Nat.zero_add] at hmem
    unfold HgiGLOps.BindFramebufferOp
    simp [hmem]

/-- A clear-on-load, blend-requesting color attachment, for the C7
witness. -/
def c7Att : HgiAttachmentDesc :=
  { texture := 4, loadOp := HgiAttachmentLoadOpClear, clearValue := 99,
    blendEnabled := true, srcColorBlendFactor := 1,
    dstColorBlendFactor := 2, srcAlphaBlendFactor := 3,
    dstAlphaBlendFactor := 4, colorBlendOp := 5, alphaBlendOp := 6 }

/-- A one-color-attachment encoder descriptor, for the C7 witness. -/
def c7Desc : HgiGraphicsEncoderDesc :=
  { colorAttachmentDescs := [c7Att], depthAttachmentDesc := c7Att,
    depthTexture := none }

/-- Witness for C7: with one blending, clear-on-load attachment, blending
is enabled after the op and the clear call for index 0 with the
attachment's clear value is issued. -/
theorem C7_bindFramebufferOp_blend_and_clear_witness :
    (HgiGLOps.BindFramebufferOp c7Desc state0).state.b.blend = true ∧
    GLCall.clearBufferfv GL_COLOR 0 c7Att.clearValue ∈
      (HgiGLOps.BindFramebufferOp c7Desc state0).calls := by
  have h1 := C7_bindFramebufferOp_blend_and_clear.1 c7Desc state0
  have h3 := C7_bindFramebufferOp_blend_and_clear.2.2 c7Desc state0 0 c7Att
    rfl rfl
  exact ⟨by rw [h1]; rfl, h3⟩

/-- The member state used by the C8 evaluation of the color-correction
pass. -/
def ccParams : HdxColorCorrectionParams :=
  { programId := 10, texture := 11, texture3dLUT := 12, vertexBuffer := 13,
    framebufferWidth := 800, framebufferHeight := 600, locColorIn := 1,
    locPosition := 2, locUvIn := 3, locLut3dIn := 4, ocioEnabled := false }

/-- C8 (code bug): from a prior state with the GL-default all-ones stencil
write mask (2^32 - 1), the color-correction full-screen pass restores the
depth write mask, depth comparison function, blend enable,
alpha-to-coverage enable and viewport exactly, but restores the stencil
write mask to 1 — the mask was read through glGetBooleanv and written back
through glStencilMask of that boolean — rather than to its prior value. -/
theorem C8_stencil_write_mask_not_restored :
    (HdxColorCorrectionTask.ApplyColorCorrection ccParams state0).state.b.depthWriteMask
      = state0.b.depthWriteMask ∧
    (HdxColorCorrectionTask.ApplyColorCorrection ccParams state0).state.b.depthComparisonFn
      = state0.b.depthComparisonFn ∧
    (HdxColorCorrectionTask.ApplyColorCorrection ccParams state0).state.b.blend
      = state0.b.blend ∧
    (HdxColorCorrectionTask.ApplyColorCorrection ccParams state0).state.b.alphaToCoverage
      = state0.b.alphaToCoverage ∧
    (HdxColorCorrectionTask.ApplyColorCorrection ccParams state0).state.b.viewportRect
      = state0.b.viewportRect ∧
    (HdxColorCorrectionTask.ApplyColorCorrection ccParams state0).state.b.stencilWriteMask
      = 1 ∧
    state0.b.stencilWriteMask = 4294967295 := by
  decide
